import Mathlib

/-!
Formal model of the CrudOperations single-page application core: the
session store (`src/state/store.js`), the authentication service
(`src/services/authService.js`), the hash router with its route guards
(`src/router/router.js`) and the REST API client
(`src/services/apiService.js`).

Embedding conventions:
- JavaScript `null`/absent values become `Option`.
- A thrown JavaScript error becomes `Except.error` carrying the message
  of the `Error` object.
- The mutable world touched by the store (the in-memory `Store.state`
  and the `localStorage` key `currentUser`) is passed and returned
  explicitly as a `StoreState` value.
- The mock REST backend (json-server) behind `apiService` is modelled by
  a `Backend` value; its query-string filters (`/users?email=...`,
  `/users?email=...&password=...`) filter the user table by exact,
  case-sensitive equality of each mentioned field, which is the
  json-server semantics assumed by §6 of the spec.
-/

/-- A user record as stored by the mock backend and the session store:
`{ id, name, email, password, role }`. -/
structure User where
  id : Nat
  name : String
  email : String
  password : String
  role : String
deriving DecidableEq

/-- A student entity
`{ id, name, email, properties, counterparties, date, avatar }`. -/
structure Student where
  id : Nat
  name : String
  email : String
  properties : String
  counterparties : String
  date : String
  avatar : String
deriving DecidableEq

/-- A payment entity `{ id, entity, type, properties, date, amount }`
(the `type` field is called `ptype` here). -/
structure Payment where
  id : Nat
  entity : String
  ptype : String
  properties : String
  date : String
  amount : Nat
deriving DecidableEq

/-- Model of the raw string held in the `localStorage` key `currentUser`:
`userJson u` is `JSON.stringify(u)` (which `JSON.parse` maps back to `u`,
a platform guarantee), `emptyStr` is the empty string (the only falsy
string in JavaScript), and `badJson` stands for any string that
`JSON.parse` rejects. Well-formed JSON that is not a user object is
outside the model; no claim depends on it. -/
inductive SlotString where
  | userJson (u : User)
  | emptyStr
  | badJson (tag : Nat)
deriving DecidableEq

/-- The combined mutable world of `store.js`: the in-memory `Store.state`
(`user`, `students`, `payments`) together with the `localStorage` slot
`currentUser` (`none` models a missing key, i.e. `getItem` returning
`null`). -/
structure StoreState where
  user : Option User
  students : List Student
  payments : List Payment
  currentUser : Option SlotString
deriving DecidableEq

/-- Model of `JSON.parse` applied to the session slot: the stringified
form of a user parses back to that user, everything else raises a
`SyntaxError` (returned as `Except.error`). -/
def jsonParseUser : SlotString → Except String User
  | .userJson u => .ok u
  | .emptyStr => .error "SyntaxError: Unexpected end of JSON input"
  | .badJson _ => .error "SyntaxError: Unexpected token"

/-- JavaScript truthiness of a string: only the empty string is falsy. -/
def SlotString.jsTruthy : SlotString → Bool
  | .emptyStr => false
  | _ => true

/-- `Store.init()`: reads `localStorage.getItem('currentUser')`; when the
result is truthy it assigns `JSON.parse(savedUser)` to `state.user` — the
parse is not guarded by any `try`/`catch`, so a `SyntaxError` escapes
`init` (modelled by `Except.error`); when the result is `null` or falsy it
only logs, leaving the state as it was. -/
def Store.init (s : StoreState) : Except String StoreState :=
  match s.currentUser with
  | some savedUser =>
    if savedUser.jsTruthy then
      match jsonParseUser savedUser with
      | .ok u => .ok { s with user := some u }
      | .error e => .error e
    else .ok s
  | none => .ok s

/-- `Store.setUser(user)`: writes the user to `state.user` and overwrites
the `currentUser` slot with `JSON.stringify(user)`. -/
def Store.setUser (s : StoreState) (user : User) : StoreState :=
  { s with user := some user, currentUser := some (SlotString.userJson user) }

/-- `Store.getUser()`: returns `state.user`. -/
def Store.getUser (s : StoreState) : Option User :=
  s.user

/-- `Store.clearUser()`: nulls `state.user` and removes the `currentUser`
key from `localStorage`. -/
def Store.clearUser (s : StoreState) : StoreState :=
  { s with user := none, currentUser := none }

/-- `authService.isAuthenticated()`: `Store.getUser() !== null`. -/
def authService.isAuthenticated (s : StoreState) : Bool :=
  (Store.getUser s).isSome

/-- `authService.isAdmin()`: `user && user.role === 'admin'` where
`user = Store.getUser()`. -/
def authService.isAdmin (s : StoreState) : Bool :=
  match Store.getUser s with
  | some user => user.role == "admin"
  | none => false

/-- The views registered in `Router.routes`. -/
inductive View where
  | loginView
  | registerView
  | dashboardView
  | studentsListView
  | paymentsView
  | createStudentView
  | editStudentView
  | notFoundView
deriving DecidableEq

/-- The `Router.routes` table mapping each path to its view. -/
def Router.routes : List (String × View) :=
  [("/", View.loginView),
   ("/login", View.loginView),
   ("/register", View.registerView),
   ("/dashboard", View.dashboardView),
   ("/students", View.studentsListView),
   ("/payments", View.paymentsView),
   ("/students/create", View.createStudentView),
   ("/students/edit", View.editStudentView),
   ("/not-found", View.notFoundView)]

/-- The `protectedRoutes` list of `Router.handleRoute`: paths requiring
an authenticated user. -/
def Router.protectedRoutes : List String :=
  ["/dashboard", "/students", "/payments", "/students/create", "/students/edit"]

/-- The `adminRoutes` list of `Router.handleRoute`: paths additionally
requiring the admin role (the elevated set of the spec). -/
def Router.adminRoutes : List String :=
  ["/students/create", "/students/edit"]

/-- Observable outcome of one `Router.handleRoute()` invocation: either an
assignment to `window.location.hash` followed by a `return` (so no view is
rendered in that invocation), or a call to `this.render(view)`. -/
inductive RouteOutcome where
  | redirect (hash : String)
  | render (v : View)
deriving DecidableEq

/-- Characters of a string before the first `?`, or all of them when no
`?` occurs. -/
def beforeQuery : List Char → List Char
  | [] => []
  | c :: cs => if c = '?' then [] else c :: beforeQuery cs

/-- `hash.split('?')[0]`: the part of the hash before the query string. -/
def pathOfHash (hash : String) : String :=
  ⟨beforeQuery hash.data⟩

/-- `Router.handleRoute()`. The argument `rawHash` is
`window.location.hash.slice(1)`; `|| '/'` defaults the empty string, the
query-string suffix is dropped by `hash.split('?')[0]`, and the three
guards run in source order before the route table is consulted (with the
not-found view as fallback). -/
def Router.handleRoute (s : StoreState) (rawHash : String) : RouteOutcome :=
  let hash := if rawHash = "" then "/" else rawHash
  let path := pathOfHash hash
  if Router.protectedRoutes.contains path && !(authService.isAuthenticated s) then
    RouteOutcome.redirect "#/login"
  else if Router.adminRoutes.contains path && !(authService.isAdmin s) then
    RouteOutcome.redirect "#/not-found"
  else if (path == "/" || path == "/login") && authService.isAuthenticated s then
    RouteOutcome.redirect "#/dashboard"
  else
    RouteOutcome.render ((Router.routes.lookup path).getD View.notFoundView)

/-- An HTTP request as issued by `apiService`: full URL, method, and the
serialized body (`JSON.stringify(data)` for POST/PUT, `none` otherwise;
headers are not modelled — no claim concerns them). -/
structure Request where
  url : String
  method : String
  body : Option String
deriving DecidableEq

/-- A fetch response: `ok` (status in the 200–299 range), `status`,
`statusText`, and the result of `await response.json()` (`Except.error`
when the body is not valid JSON, in which case that call throws). -/
structure HttpResponse (α : Type) where
  ok : Bool
  status : Nat
  statusText : String
  json : Except String α

/-- Outcome of one `fetch` call: a resolved response, or a rejected
promise (transport failure) carrying the platform error message. -/
inductive FetchOutcome (α : Type) where
  | response (r : HttpResponse α)
  | netError (errMsg : String)

/-- The json-server base URL (`API_URL` in `apiService.js`). -/
def API_URL : String := "http://localhost:3000"

/-- `apiService.get(endpoint)`: one `fetch(API_URL + endpoint)`; a non-ok
status throws `Error fetching data: ${status} ${statusText}`; an ok status
returns `await response.json()` (whose own error, if any, is caught and
rethrown unchanged by the catch block); a transport failure is logged and
rethrown unchanged. The second component lists the requests issued —
always exactly the one. -/
def apiService.get {α : Type} (net : Request → FetchOutcome α) (endpoint : String) :
    Except String α × List Request :=
  let req : Request := ⟨API_URL ++ endpoint, "GET", none⟩
  let result : Except String α :=
    match net req with
    | .netError e => .error e
    | .response r =>
      if r.ok then r.json
      else .error ("Error fetching data: " ++ toString r.status ++ " " ++ r.statusText)
  (result, [req])

/-- `apiService.post(endpoint, data)`: one POST with the serialized body;
a non-ok status throws `Error posting data: ${status} ${statusText}`;
otherwise as `apiService.get`. -/
def apiService.post {α : Type} (net : Request → FetchOutcome α)
    (endpoint : String) (body : String) :
    Except String α × List Request :=
  let req : Request := ⟨API_URL ++ endpoint, "POST", some body⟩
  let result : Except String α :=
    match net req with
    | .netError e => .error e
    | .response r =>
      if r.ok then r.json
      else .error ("Error posting data: " ++ toString r.status ++ " " ++ r.statusText)
  (result, [req])

/-- `apiService.put(endpoint, data)`: one PUT with the serialized body;
a non-ok status throws `Error updating data: ${status} ${statusText}`;
otherwise as `apiService.get`. -/
def apiService.put {α : Type} (net : Request → FetchOutcome α)
    (endpoint : String) (body : String) :
    Except String α × List Request :=
  let req : Request := ⟨API_URL ++ endpoint, "PUT", some body⟩
  let result : Except String α :=
    match net req with
    | .netError e => .error e
    | .response r =>
      if r.ok then r.json
      else .error ("Error updating data: " ++ toString r.status ++ " " ++ r.statusText)
  (result, [req])

/-- `apiService.delete(endpoint)`: one DELETE without body; a non-ok
status throws `Error deleting data: ${status} ${statusText}`; an ok status
returns `true` without reading the body; a transport failure is rethrown
unchanged. -/
def apiService.delete {α : Type} (net : Request → FetchOutcome α) (endpoint : String) :
    Except String Bool × List Request :=
  let req : Request := ⟨API_URL ++ endpoint, "DELETE", none⟩
  let result : Except String Bool :=
    match net req with
    | .netError e => .error e
    | .response r =>
      if r.ok then .ok true
      else .error ("Error deleting data: " ++ toString r.status ++ " " ++ r.statusText)
  (result, [req])

/-- Result object returned by `authService.login` and
`authService.register`: `{ success, user?, message? }`. -/
structure AuthResult where
  success : Bool
  user : Option User
  message : Option String
deriving DecidableEq

/-- The mock REST backend (json-server) behind `/users`: its user table
and the next id it will assign on creation. -/
structure Backend where
  users : List User
  nextId : Nat
deriving DecidableEq

/-- Reachability of the backend for the duration of one auth-service
call: either up with its database, or down with the message of the error
thrown by `apiService` (any non-success status or transport failure, both
of which land in the same catch block). -/
inductive Net where
  | up (b : Backend)
  | down (errMsg : String)
deriving DecidableEq

/-- The credential lookup `GET /users?email=E&password=P`: json-server
filters the user table by exact (case-sensitive) equality on each query
field, both values interpolated verbatim by `authService.login`. -/
def usersMatchingCredentials (db : List User) (email password : String) : List User :=
  db.filter (fun u => u.email == email && u.password == password)

/-- The email lookup `GET /users?email=E` used by the register pre-check:
exact (case-sensitive) equality, the email interpolated verbatim. -/
def usersMatchingEmail (db : List User) (email : String) : List User :=
  db.filter (fun u => u.email == email)

/-- `authService.login(email, password)`: queries
`/users?email=...&password=...`; a nonempty result array is a match and
its first element is stored via `Store.setUser`; an empty array returns
`{success:false, message:'Credenciales invalidas'}` (accented in the
source); a thrown apiService error is caught and returns the generic
retry message. The result is paired with the store state after the
call. -/
def authService.login (net : Net) (s : StoreState) (email password : String) :
    AuthResult × StoreState :=
  match net with
  | .down _ =>
    (⟨false, none, some "Error al iniciar sesión. Por favor intenta de nuevo."⟩, s)
  | .up b =>
    match usersMatchingCredentials b.users email password with
    | [] => (⟨false, none, some "Credenciales inválidas"⟩, s)
    | user :: _ => (⟨true, some user, none⟩, Store.setUser s user)

/-- Registration payload `{ name, email, password, role }`; the role field
may be absent (`none`). -/
structure RegisterData where
  name : String
  email : String
  password : String
  role : Option String
deriving DecidableEq

/-- `userData.role || 'user'`: an absent role, and the empty string (the
only falsy string), default to `user`. -/
def roleOrDefault : Option String → String
  | none => "user"
  | some r => if r = "" then "user" else r

/-- `POST /users` on json-server: assigns the next id and appends the
record to the user table. -/
def Backend.createUser (b : Backend) (name email password role : String) :
    User × Backend :=
  let u : User := ⟨b.nextId, name, email, password, role⟩
  (u, ⟨b.users ++ [u], b.nextId + 1⟩)

/-- `authService.register(userData)`: pre-checks `/users?email=...` for an
existing user (exact match on the verbatim email); on a hit returns
`{success:false, message:'El email ya esta registrado'}` without creating
anything; otherwise POSTs `{...userData, role: userData.role || 'user'}`,
auto-authenticates via `Store.setUser`, and returns the created user. A
thrown apiService error is caught and returns the generic retry message.
The result is returned together with the store and the backend after the
call. -/
def authService.register (net : Net) (s : StoreState) (userData : RegisterData) :
    AuthResult × StoreState × Net :=
  match net with
  | .down e =>
    (⟨false, none, some "Error al registrar usuario. Por favor intenta de nuevo."⟩,
      s, Net.down e)
  | .up b =>
    match usersMatchingEmail b.users userData.email with
    | _ :: _ => (⟨false, none, some "El email ya está registrado"⟩, s, Net.up b)
    | [] =>
      let created := b.createUser userData.name userData.email userData.password
        (roleOrDefault userData.role)
      (⟨true, some created.1, none⟩, Store.setUser s created.1, Net.up created.2)

/-- The seeded admin account from the test scenarios. -/
def adminUser : User :=
  ⟨1, "Admin User", "admin@crudops.com", "admin123", "admin"⟩

/-- A non-admin account. -/
def regularUser : User :=
  ⟨2, "Regular User", "user@crudops.com", "user123", "user"⟩

/-- A store with no principal and an empty persisted slot. -/
def emptyStore : StoreState := ⟨none, [], [], none⟩

/-- A network oracle answering every request with a 500 response. -/
def net500 : Request → FetchOutcome Nat :=
  fun _ => FetchOutcome.response ⟨false, 500, "Internal Server Error", Except.error "no body"⟩

/-- A network oracle answering every request with a 404 response. -/
def net404 : Request → FetchOutcome Nat :=
  fun _ => FetchOutcome.response ⟨false, 404, "Not Found", Except.error "no body"⟩

/-- A network oracle rejecting every request with the same transport
error. -/
def netDown : Request → FetchOutcome Nat :=
  fun _ => FetchOutcome.netError "TypeError: Failed to fetch"

theorem pathEval_create :
    pathOfHash "/students/create" = "/students/create" := by
  decide

theorem pathEval_edit :
    pathOfHash "/students/edit" = "/students/edit" := by
  decide

/-- Claim C8: for every principal `p` and store state, `setPrincipal(p)`
(`Store.setUser`) immediately followed by `getPrincipal`
(`Store.getUser`) returns a principal equal to `p`, and the persisted
slot is overwritten wholesale with the serialized form of `p`. -/
theorem Store.setUser_getUser_roundtrip (s : StoreState) (p : User) :
    Store.getUser (Store.setUser s p) = some p ∧
    (Store.setUser s p).currentUser = some (SlotString.userJson p) :=
  ⟨rfl, rfl⟩

/-- Claim C9: from any state, `clearPrincipal` (`Store.clearUser`)
followed by `getPrincipal` returns absent, a fresh `Store.init` against
the now-empty persisted slot succeeds without modifying the state, and
the principal it reports is still absent. -/
theorem Store.clearUser_then_absent (s : StoreState) :
    Store.getUser (Store.clearUser s) = none ∧
    Store.init (Store.clearUser s) = Except.ok (Store.clearUser s) ∧
    (Store.init (Store.clearUser s)).map Store.getUser = Except.ok none :=
  ⟨rfl, rfl, rfl⟩

/-- Claim C3 counterexample: a store whose persisted slot holds malformed
content makes `Store.init` raise the `SyntaxError` of `JSON.parse`
instead of failing silently like the absent-slot case — the claim that no
error escapes `init` for any slot content is false. -/
theorem Store.init_badJson_raises :
    Store.init ⟨none, [], [], some (SlotString.badJson 0)⟩ =
      Except.error "SyntaxError: Unexpected token" :=
  rfl

/-- Claim C3 (amended): `Store.init` loads the persisted record when the
slot holds well-formed content; an absent slot, and the falsy empty
string, are handled silently, leaving the principal as it was; but
malformed content is not treated like an absent slot — the parse error
escapes `init`. -/
theorem Store.init_spec (s : StoreState) :
    (s.currentUser = none → Store.init s = Except.ok s) ∧
    (s.currentUser = some SlotString.emptyStr → Store.init s = Except.ok s) ∧
    (∀ u, s.currentUser = some (SlotString.userJson u) →
      Store.init s = Except.ok { s with user := some u }) ∧
    (∀ n, s.currentUser = some (SlotString.badJson n) →
      Store.init s = Except.error "SyntaxError: Unexpected token") := by
  refine ⟨?_, ?_, ?_, ?_⟩
  · intro h
    simp [Store.init, h]
  · intro h
    simp [Store.init, h, SlotString.jsTruthy]
  · intro u h
    simp [Store.init, h, SlotString.jsTruthy, jsonParseUser]
  · intro n h
    simp [Store.init, h, SlotString.jsTruthy, jsonParseUser]

/-- Claim C3 witness: `Store.init` at a slot holding a well-formed
serialized admin user loads that user. -/
theorem Store.init_spec_witness :
    Store.init ⟨none, [], [], some (SlotString.userJson adminUser)⟩ =
      Except.ok ⟨some adminUser, [], [], some (SlotString.userJson adminUser)⟩ :=
  (Store.init_spec ⟨none, [], [], some (SlotString.userJson adminUser)⟩).2.2.1 adminUser rfl

/-- Claim C1: for every path in the elevated (admin) set, `handleRoute`
with no principal present redirects to `/login` and never to
`/not-found`: the authentication guard is evaluated and fires before the
admin-role guard. -/
theorem Router.elevated_unauthenticated_to_login (P : String)
    (hP : P ∈ Router.adminRoutes) (s : StoreState)
    (hs : Store.getUser s = none) :
    Router.handleRoute s P = RouteOutcome.redirect "#/login" := by
  have hauth : authService.isAuthenticated s = false := by
    simp [authService.isAuthenticated, hs]
  have hP2 : P = "/students/create" ∨ P = "/students/edit" := by
    simpa [Router.adminRoutes] using hP
  rcases hP2 with h | h <;> subst h <;>
    simp [Router.handleRoute, hauth, pathEval_create, pathEval_edit,
      Router.protectedRoutes, Router.adminRoutes]

/-- Claim C1 witness: an unauthenticated navigation to
`/students/create` redirects to `/login`. -/
theorem Router.elevated_unauthenticated_to_login_witness :
    Router.handleRoute emptyStore "/students/create" =
      RouteOutcome.redirect "#/login" :=
  Router.elevated_unauthenticated_to_login "/students/create" (by decide)
    emptyStore rfl

/-- Claim C2: for every path in the elevated (admin) set, `handleRoute`
with a non-admin principal present redirects to `/not-found`, and no view
is rendered in that invocation. -/
theorem Router.elevated_nonadmin_to_notFound (P : String)
    (hP : P ∈ Router.adminRoutes) (s : StoreState) (u : User)
    (hs : Store.getUser s = some u) (hrole : u.role ≠ "admin") :
    Router.handleRoute s P = RouteOutcome.redirect "#/not-found" ∧
    ∀ v : View, Router.handleRoute s P ≠ RouteOutcome.render v := by
  have hauth : authService.isAuthenticated s = true := by
    simp [authService.isAuthenticated, hs]
  have hadm : authService.isAdmin s = false := by
    simp [authService.isAdmin, hs, hrole]
  have hP2 : P = "/students/create" ∨ P = "/students/edit" := by
    simpa [Router.adminRoutes] using hP
  have hmain : Router.handleRoute s P = RouteOutcome.redirect "#/not-found" := by
    rcases hP2 with h | h <;> subst h <;>
      simp [Router.handleRoute, hauth, hadm, pathEval_create, pathEval_edit,
        Router.protectedRoutes, Router.adminRoutes]
  refine ⟨hmain, ?_⟩
  intro v hv
  rw [hmain] at hv
  exact RouteOutcome.noConfusion hv

/-- Claim C2 witness: a navigation to `/students/edit` while
authenticated as a non-admin user redirects to `/not-found`. -/
theorem Router.elevated_nonadmin_to_notFound_witness :
    Router.handleRoute ⟨some regularUser, [], [], none⟩ "/students/edit" =
      RouteOutcome.redirect "#/not-found" :=
  (Router.elevated_nonadmin_to_notFound "/students/edit" (by decide)
    ⟨some regularUser, [], [], none⟩ regularUser rfl (by decide)).1

/-- Claim C6: when no user record matches the email/password pair,
`authService.login` returns a failure with the generic reason string
`Credenciales inválidas` and leaves the store — hence the principal —
exactly as it was: `Store.setUser` is never reached on this path. -/
theorem authService.login_no_match (b : Backend) (s : StoreState)
    (email password : String)
    (h : ∀ u ∈ b.users, ¬(u.email = email ∧ u.password = password)) :
    authService.login (Net.up b) s email password =
      (⟨false, none, some "Credenciales inválidas"⟩, s) := by
  have hf : usersMatchingCredentials b.users email password = [] := by
    rw [usersMatchingCredentials, List.filter_eq_nil_iff]
    intro u hu
    simpa using h u hu
  simp [authService.login, hf]

/-- Claim C6 witness: logging in with the seeded admin email and a wrong
password fails with the generic message and leaves the empty store
untouched. -/
theorem authService.login_no_match_witness :
    authService.login (Net.up ⟨[adminUser], 2⟩) emptyStore
        "admin@crudops.com" "wrong-password" =
      (⟨false, none, some "Credenciales inválidas"⟩, emptyStore) :=
  authService.login_no_match ⟨[adminUser], 2⟩ emptyStore
    "admin@crudops.com" "wrong-password" (by decide)

/-- Claim C7 counterexample: with the same email/password pair, the
no-match case and the transport-error case return different failure
messages, so the two causes are distinguishable in the returned result —
the claimed identical message is false. -/
theorem authService.login_messages_differ :
    (authService.login (Net.up ⟨[], 1⟩) emptyStore "a@b.com" "pw").1.message =
        some "Credenciales inválidas" ∧
    (authService.login (Net.down "fetch failed") emptyStore "a@b.com" "pw").1.message =
        some "Error al iniciar sesión. Por favor intenta de nuevo." ∧
    (authService.login (Net.up ⟨[], 1⟩) emptyStore "a@b.com" "pw").1.message ≠
      (authService.login (Net.down "fetch failed") emptyStore "a@b.com" "pw").1.message := by
  refine ⟨rfl, rfl, ?_⟩
  decide

/-- Claim C7 (amended): both failure causes yield `success:false` with a
generic message and an unchanged store, but the messages differ by cause:
`Credenciales inválidas` on no match versus the retry message
`Error al iniciar sesión. Por favor intenta de nuevo.` on a thrown API
error. -/
theorem authService.login_failure_by_cause (b : Backend) (s : StoreState)
    (email password e : String)
    (h : usersMatchingCredentials b.users email password = []) :
    authService.login (Net.up b) s email password =
      (⟨false, none, some "Credenciales inválidas"⟩, s) ∧
    authService.login (Net.down e) s email password =
      (⟨false, none, some "Error al iniciar sesión. Por favor intenta de nuevo."⟩, s) ∧
    ("Credenciales inválidas" : String) ≠
      "Error al iniciar sesión. Por favor intenta de nuevo." := by
  refine ⟨by simp [authService.login, h], rfl, by decide⟩

/-- Claim C7 witness: the amended statement at an empty backend and a
concrete transport error. -/
theorem authService.login_failure_by_cause_witness :
    authService.login (Net.up ⟨[], 1⟩) emptyStore "x@y.z" "pw" =
      (⟨false, none, some "Credenciales inválidas"⟩, emptyStore) :=
  (authService.login_failure_by_cause ⟨[], 1⟩ emptyStore "x@y.z" "pw" "boom" rfl).1

/-- Registration data whose email matches the seeded admin account up to
letter case only. -/
def mixedCaseData : RegisterData :=
  ⟨"Second Admin", "Admin@CrudOps.com", "pw2", some "user"⟩

/-- Claim C4 counterexample: with `admin@crudops.com` already registered,
a second registration whose email differs only in letter case is NOT
rejected: the pre-check query matches exactly and case-sensitively, so
`register` creates a second user record and reports success — the claimed
case-insensitive uniqueness is false. -/
theorem authService.register_not_case_insensitive :
    (authService.register (Net.up ⟨[adminUser], 2⟩) emptyStore mixedCaseData).1.success
        = true ∧
    (authService.register (Net.up ⟨[adminUser], 2⟩) emptyStore mixedCaseData).2.2 =
      Net.up ⟨[adminUser, ⟨2, "Second Admin", "Admin@CrudOps.com", "pw2", "user"⟩], 3⟩ := by
  constructor <;> rfl

/-- Claim C4 (amended): the pre-check is a case-sensitive exact match on
the verbatim email: whenever some existing user carries exactly the
requested email string, the registration fails with
`El email ya está registrado` and neither the store nor the backend
changes — no user record is created. Emails differing only in case do not
trigger the check. -/
theorem authService.register_exact_duplicate_rejected (b : Backend)
    (s : StoreState) (rd : RegisterData)
    (hdup : ∃ u ∈ b.users, u.email = rd.email) :
    authService.register (Net.up b) s rd =
      (⟨false, none, some "El email ya está registrado"⟩, s, Net.up b) := by
  obtain ⟨u, hu, he⟩ := hdup
  have hne : usersMatchingEmail b.users rd.email ≠ [] := by
    rw [usersMatchingEmail]
    intro hnil
    rw [List.filter_eq_nil_iff] at hnil
    exact hnil u hu (by simp [he])
  rcases hx : usersMatchingEmail b.users rd.email with _ | ⟨v, l⟩
  · exact absurd hx hne
  · simp [authService.register, hx]

/-- Claim C4 witness: a registration reusing the exact admin email string
is rejected and creates nothing. -/
theorem authService.register_exact_duplicate_rejected_witness :
    authService.register (Net.up ⟨[adminUser], 2⟩) emptyStore
        ⟨"Dup", "admin@crudops.com", "pw", none⟩ =
      (⟨false, none, some "El email ya está registrado"⟩, emptyStore,
        Net.up ⟨[adminUser], 2⟩) :=
  authService.register_exact_duplicate_rejected ⟨[adminUser], 2⟩ emptyStore
    ⟨"Dup", "admin@crudops.com", "pw", none⟩ ⟨adminUser, by decide, rfl⟩

/-- Claim C10: a successful registration creates the user with role
`userData.role || 'user'`: the role is `user` whenever the supplied role
is absent or falsy, and the verbatim supplied role otherwise — so every
principal created via register carries either the explicitly supplied
role or `user`. -/
theorem authService.register_role_default (b : Backend) (s : StoreState)
    (rd : RegisterData)
    (hfree : usersMatchingEmail b.users rd.email = []) :
    (authService.register (Net.up b) s rd).1.user =
      some ⟨b.nextId, rd.name, rd.email, rd.password, roleOrDefault rd.role⟩ ∧
    (rd.role = none → roleOrDefault rd.role = "user") ∧
    (rd.role = some "" → roleOrDefault rd.role = "user") ∧
    (∀ r, rd.role = some r → r ≠ "" → roleOrDefault rd.role = r) := by
  refine ⟨?_, ?_, ?_, ?_⟩
  · simp [authService.register, hfree, Backend.createUser]
  · intro h
    simp [roleOrDefault, h]
  · intro h
    simp [roleOrDefault, h]
  · intro r h hr
    simp [roleOrDefault, h, hr]

/-- Claim C10 witness: registering with an absent role field against an
empty backend creates a user whose role is `user`. -/
theorem authService.register_role_default_witness :
    (authService.register (Net.up ⟨[], 1⟩) emptyStore
        ⟨"New User", "new@crudops.com", "pw", none⟩).1.user =
      some ⟨1, "New User", "new@crudops.com", "pw", "user"⟩ :=
  (authService.register_role_default ⟨[], 1⟩ emptyStore
    ⟨"New User", "new@crudops.com", "pw", none⟩ rfl).1

/-- Claim C5 counterexample: two different paths yield identical thrown
errors under the same failing status, so the error does not carry the
failed path; and under a transport failure, a read and a remove yield the
same rethrown platform error, which carries neither path nor operation —
the claimed error contents are false. -/
theorem apiService.error_lacks_path :
    (apiService.get net500 "/users").1 = (apiService.get net500 "/payments").1 ∧
    (apiService.get net500 "/users").1 =
      Except.error "Error fetching data: 500 Internal Server Error" ∧
    (apiService.get netDown "/users").1 =
      Except.error "TypeError: Failed to fetch" ∧
    (apiService.delete netDown "/students/5").1 =
      Except.error "TypeError: Failed to fetch" := by
  exact ⟨rfl, rfl, rfl, rfl⟩

/-- Claim C5 (amended): every apiService operation issues exactly one
network request — the right URL, method and body, with no retry; a non-ok
status makes it throw an error naming the operation verb and the HTTP
status and status text, but not the requested path; a transport failure
is rethrown unchanged, carrying neither path nor operation. -/
theorem apiService.single_attempt_error_shape {α : Type}
    (net : Request → FetchOutcome α) (endpoint body : String) :
    (apiService.get net endpoint).2 = [⟨API_URL ++ endpoint, "GET", none⟩] ∧
    (apiService.post net endpoint body).2 =
      [⟨API_URL ++ endpoint, "POST", some body⟩] ∧
    (apiService.put net endpoint body).2 =
      [⟨API_URL ++ endpoint, "PUT", some body⟩] ∧
    (apiService.delete net endpoint).2 = [⟨API_URL ++ endpoint, "DELETE", none⟩] ∧
    (∀ r, net ⟨API_URL ++ endpoint, "GET", none⟩ = FetchOutcome.response r →
      r.ok = false →
      (apiService.get net endpoint).1 =
        Except.error ("Error fetching data: " ++ toString r.status ++ " " ++ r.statusText)) ∧
    (∀ e, net ⟨API_URL ++ endpoint, "GET", none⟩ = FetchOutcome.netError e →
      (apiService.get net endpoint).1 = Except.error e) ∧
    (∀ r, net ⟨API_URL ++ endpoint, "POST", some body⟩ = FetchOutcome.response r →
      r.ok = false →
      (apiService.post net endpoint body).1 =
        Except.error ("Error posting data: " ++ toString r.status ++ " " ++ r.statusText)) ∧
    (∀ e, net ⟨API_URL ++ endpoint, "POST", some body⟩ = FetchOutcome.netError e →
      (apiService.post net endpoint body).1 = Except.error e) ∧
    (∀ r, net ⟨API_URL ++ endpoint, "PUT", some body⟩ = FetchOutcome.response r →
      r.ok = false →
      (apiService.put net endpoint body).1 =
        Except.error ("Error updating data: " ++ toString r.status ++ " " ++ r.statusText)) ∧
    (∀ e, net ⟨API_URL ++ endpoint, "PUT", some body⟩ = FetchOutcome.netError e →
      (apiService.put net endpoint body).1 = Except.error e) ∧
    (∀ r, net ⟨API_URL ++ endpoint, "DELETE", none⟩ = FetchOutcome.response r →
      r.ok = false →
      (apiService.delete net endpoint).1 =
        Except.error ("Error deleting data: " ++ toString r.status ++ " " ++ r.statusText)) ∧
    (∀ e, net ⟨API_URL ++ endpoint, "DELETE", none⟩ = FetchOutcome.netError e →
      (apiService.delete net endpoint).1 = Except.error e) := by
  refine ⟨rfl, rfl, rfl, rfl, ?_, ?_, ?_, ?_, ?_, ?_, ?_, ?_⟩
  · intro r hr hok
    simp [apiService.get, hr, hok]
  · intro e he
    simp [apiService.get, he]
  · intro r hr hok
    simp [apiService.post, hr, hok]
  · intro e he
    simp [apiService.post, he]
  · intro r hr hok
    simp [apiService.put, hr, hok]
  · intro e he
    simp [apiService.put, he]
  · intro r hr hok
    simp [apiService.delete, hr, hok]
  · intro e he
    simp [apiService.delete, he]

/-- Claim C5 witness: a 404 answer to a read of `/users` produces exactly
one request and the status-bearing error, and a 404 answer to a create
and to a replace produces the matching operation-verb errors. -/
theorem apiService.single_attempt_error_shape_witness :
    (apiService.get net404 "/users").2 =
      [⟨"http://localhost:3000/users", "GET", none⟩] ∧
    (apiService.get net404 "/users").1 =
      Except.error "Error fetching data: 404 Not Found" ∧
    (apiService.post net404 "/users" "name=x").1 =
      Except.error "Error posting data: 404 Not Found" ∧
    (apiService.put net404 "/users/1" "name=x").1 =
      Except.error "Error updating data: 404 Not Found" :=
  ⟨(apiService.single_attempt_error_shape net404 "/users" "name=x").1,
    (apiService.single_attempt_error_shape net404 "/users" "name=x").2.2.2.2.1
      ⟨false, 404, "Not Found", Except.error "no body"⟩ rfl rfl,
    (apiService.single_attempt_error_shape net404 "/users" "name=x").2.2.2.2.2.2.1
      ⟨false, 404, "Not Found", Except.error "no body"⟩ rfl rfl,
    (apiService.single_attempt_error_shape net404 "/users/1" "name=x").2.2.2.2.2.2.2.2.1
      ⟨false, 404, "Not Found", Except.error "no body"⟩ rfl rfl⟩
